import Mathlib

/-!
Verification development for the github-crypto-inspector scoring engine.

The analyzers of the repository (`src/lib/pow-algorithms.ts`,
`src/lib/analyzers/activity-analyzer.ts`, the fork and security analyzers,
and the two API route aggregators) are embedded shallowly below:

* external fetches (octokit calls) are modelled by passing their results,
  or an `Except String` outcome when the call can throw, as explicit inputs;
* JavaScript `number` arithmetic is modelled over `ℚ`/`ℤ` (exact rational
  arithmetic); `Math.round` is `jsRound`, `Math.floor` of an integer
  quotient is `Int.fdiv`;
* JavaScript truthiness tests on numeric/optional fields are modelled
  explicitly (`0` and a missing field are falsy);
* `String.prototype.includes` is `containsStr`, `toLowerCase` is
  `toLowerStr` (ASCII case mapping, which is all the catalog and the flag
  messages use).
-/

/-- Boolean substring test on character lists: some suffix of the haystack
starts with the needle.  Models JavaScript `hay.includes(needle)`. -/
def isSubList (needle : List Char) : List Char → Bool
  | [] => needle.isPrefixOf []
  | c :: rest => needle.isPrefixOf (c :: rest) || isSubList needle rest

/-- Models JavaScript `hay.includes(needle)` on strings. -/
def containsStr (hay needle : String) : Bool := isSubList needle.data hay.data

/-- Models JavaScript `s.toLowerCase()` (ASCII range, which is all the
flag messages and catalog patterns of the code use). -/
def toLowerStr (s : String) : String := String.mk (s.data.map Char.toLower)

/-- Number of (possibly overlapping) occurrences of `needle` in `hay`:
the number of positions at which `needle` starts. -/
def countOccs (needle hay : String) : Nat :=
  ((List.range (hay.data.length + 1)).filter
    (fun i => needle.data.isPrefixOf (hay.data.drop i))).length

/-- Models JavaScript `Math.round` on an exact rational: round half toward
positive infinity. -/
def jsRound (q : ℚ) : ℤ := ⌊q + 1/2⌋

theorem isSubList_of_drop (needle : List Char) :
    ∀ (hay : List Char) (i : Nat),
      needle.isPrefixOf (hay.drop i) = true → isSubList needle hay = true := by
  intro hay
  induction hay with
  | nil => intro i h; simpa [isSubList, List.drop_nil] using h
  | cons c rest ih =>
    intro i h
    cases i with
    | zero => simp only [isSubList, Bool.or_eq_true]; left; simpa using h
    | succ j =>
      simp only [isSubList, Bool.or_eq_true]; right; exact ih j (by simpa using h)

theorem countOccs_pos_contains (needle hay : String) (h : 0 < countOccs needle hay) :
    containsStr hay needle = true := by
  unfold countOccs at h
  rw [List.length_pos_iff_exists_mem] at h
  obtain ⟨i, hi⟩ := h
  rw [List.mem_filter] at hi
  exact isSubList_of_drop needle.data hay.data i (by simpa using hi.2)

/-! ## Signature catalog (`src/lib/pow-algorithms.ts`) -/

inductive SigType where
  | regex
  | literal
deriving DecidableEq, Repr

/-- One signature rule of a catalog entry. -/
structure Signature where
  pattern : String
  type : SigType
  weight : Nat
deriving DecidableEq, Repr

/-- One catalog entry of `POW_ALGORITHMS`. -/
structure PowAlgorithm where
  id : String
  name : String
  description : String
  usedBy : List String
  signatures : List Signature
deriving DecidableEq, Repr

def sha256Algo : PowAlgorithm :=
  { id := "sha256", name := "SHA-256"
    description := "Bitcoin-style double SHA-256 hashing. ASIC-dominated."
    usedBy := ["Bitcoin", "Bitcoin Cash", "many clones"]
    signatures :=
      [ ⟨"SHA256|sha256|SHA-256", SigType.regex, 2⟩,
        ⟨"double.*sha|sha.*double", SigType.regex, 3⟩,
        ⟨"scrypt", SigType.literal, 0⟩ ] }

def scryptAlgo : PowAlgorithm :=
  { id := "scrypt", name := "Scrypt"
    description := "Memory-hard function. Used by Litecoin and derivatives."
    usedBy := ["Litecoin", "Dogecoin", "many altcoins"]
    signatures :=
      [ ⟨"scrypt", SigType.literal, 3⟩,
        ⟨"SCRYPT", SigType.literal, 3⟩ ] }

def ethashAlgo : PowAlgorithm :=
  { id := "ethash", name := "Ethash"
    description := "DAG-based, memory-hard. Formerly Ethereum PoW."
    usedBy := ["Ethereum Classic", "Ethereum (pre-merge)", "other chains"]
    signatures :=
      [ ⟨"ethash", SigType.literal, 3⟩,
        ⟨"Ethash", SigType.literal, 3⟩,
        ⟨"dag.*epoch|epoch.*dag", SigType.regex, 2⟩,
        ⟨"hashimoto|Hashimoto", SigType.literal, 2⟩ ] }

def randomxAlgo : PowAlgorithm :=
  { id := "randomx", name := "RandomX"
    description := "CPU-friendly, ASIC-resistant. Used by Monero."
    usedBy := ["Monero", "Wownero"]
    signatures :=
      [ ⟨"randomx|RandomX", SigType.literal, 3⟩,
        ⟨"RANDOMX", SigType.literal, 3⟩ ] }

def equihashAlgo : PowAlgorithm :=
  { id := "equihash", name := "Equihash"
    description := "Memory-hard, used by Zcash and others."
    usedBy := ["Zcash", "Bitcoin Gold", "ZenCash"]
    signatures :=
      [ ⟨"equihash", SigType.literal, 3⟩,
        ⟨"Equihash", SigType.literal, 3⟩ ] }

def kawpowAlgo : PowAlgorithm :=
  { id := "kawpow", name := "KawPow / Ravencoin"
    description := "Ethash variant with ProgPoW elements."
    usedBy := ["Ravencoin", "Ethereum Classic (optional)"]
    signatures :=
      [ ⟨"kawpow|KawPow", SigType.literal, 3⟩,
        ⟨"ravencoin.*pow|progpow", SigType.regex, 2⟩ ] }

def blake2bAlgo : PowAlgorithm :=
  { id := "blake2b", name := "Blake2b"
    description := "Fast hashing, used in several PoW chains."
    usedBy := ["Siacoin", "Decred (blake256)", "Handshake"]
    signatures :=
      [ ⟨"blake2b|Blake2b|BLAKE2b", SigType.regex, 2⟩,
        ⟨"blake256", SigType.literal, 2⟩ ] }

def lyra2Algo : PowAlgorithm :=
  { id := "lyra2", name := "Lyra2 / Lyra2RE"
    description := "Memory-hard, used by Vertcoin and others."
    usedBy := ["Vertcoin", "MonaCoin"]
    signatures :=
      [ ⟨"lyra2|Lyra2", SigType.literal, 3⟩,
        ⟨"lyra2re", SigType.literal, 3⟩ ] }

def ghostriderAlgo : PowAlgorithm :=
  { id := "ghostrider", name := "Ghostrider"
    description := "CPU-oriented, used by Raptoreum."
    usedBy := ["Raptoreum"]
    signatures := [ ⟨"ghostrider|Ghostrider", SigType.literal, 3⟩ ] }

def verthashAlgo : PowAlgorithm :=
  { id := "verthash", name := "Verthash"
    description := "ASIC-resistant, used by Vertcoin (newer)."
    usedBy := ["Vertcoin"]
    signatures := [ ⟨"verthash|Verthash", SigType.literal, 3⟩ ] }

/-- The fixed signature catalog, in source order. -/
def POW_ALGORITHMS : List PowAlgorithm :=
  [ sha256Algo, scryptAlgo, ethashAlgo, randomxAlgo, equihashAlgo,
    kawpowAlgo, blake2bAlgo, lyra2Algo, ghostriderAlgo, verthashAlgo ]

/-! ## Pattern scanner (`detectPowAlgorithms`)

The JavaScript regex engine is external to the scoring logic; it is
modelled by an oracle `mc pattern text` giving the number of matches of
the (case-insensitive, global) regex `pattern` in `text`.  Every pattern
in the catalog is a valid regex, so the `catch` fallback of the source
(for invalid patterns) is unreachable and not modelled. -/

/-- Score contribution of one signature rule: a literal adds its weight
once if the substring is present; a regex adds `weight * min(count, 3)`. -/
def sigScore (mc : String → String → Nat) (text : String) (s : Signature) : Nat :=
  match s.type with
  | SigType.literal => if containsStr text s.pattern then s.weight else 0
  | SigType.regex => s.weight * min (mc s.pattern text) 3

/-- Total score of one catalog entry over a corpus. -/
def algoScore (mc : String → String → Nat) (text : String) (a : PowAlgorithm) : Nat :=
  (a.signatures.map (sigScore mc text)).sum

/-- Stable insertion (descending by key): models the stable
`Array.prototype.sort` with comparator `(a, b) => key b - key a`. -/
def insertDescBy (key : α → Nat) (x : α) : List α → List α
  | [] => [x]
  | y :: ys => if key y ≤ key x then x :: y :: ys else y :: insertDescBy key x ys

/-- Stable descending sort by a key. -/
def sortDescBy (key : α → Nat) (l : List α) : List α := l.foldr (insertDescBy key) []

/-- The accumulation loop of `detectPowAlgorithms`: keep entries with a
positive score whose id has not been seen yet. -/
def detectLoop (mc : String → String → Nat) (text : String) :
    List PowAlgorithm → List String → List (PowAlgorithm × Nat)
  | [], _ => []
  | a :: rest, seen =>
    let score := algoScore mc text a
    if 0 < score ∧ ¬ seen.contains a.id then
      (a, score) :: detectLoop mc text rest (a.id :: seen)
    else
      detectLoop mc text rest seen

/-- `detectPowAlgorithms` from `src/lib/pow-algorithms.ts`: every catalog
algorithm with nonzero score, sorted descending by score (stable). -/
def detectPowAlgorithms (mc : String → String → Nat) (text : String) :
    List (PowAlgorithm × Nat) :=
  sortDescBy (fun r => r.2) (detectLoop mc text POW_ALGORITHMS [])

/-! ## Fork originality (`computeForkOriginality`, `analyzeFork`)

`computeForkOriginality` calls the GitHub compare endpoint inside a
`try/catch`; the comparison outcome is modelled as an `Except String`
input, and the `catch` branch is the `.error` case. -/

/-- One file entry of the compare response. -/
structure CompareFile where
  status : String
deriving DecidableEq, Repr

/-- The fields of the compare response used by the source. -/
structure CompareData where
  ahead_by : Nat
  files : Option (List CompareFile)
deriving DecidableEq, Repr

structure OriginalityResult where
  originalityScore : ℤ
  uniqueCommits : Nat
  totalFiles : Nat
  modifiedFiles : Nat
deriving DecidableEq, Repr

/-- `computeForkOriginality` from `src/lib/pow-algorithms.ts` (octokit
client section): commits contribute up to 50 points (2 per unique commit),
the modified-or-added file ratio contributes up to 50; a failed comparison
falls back to score 10 with zero counts. -/
def computeForkOriginality (cmp : Except String CompareData) : OriginalityResult :=
  match cmp with
  | Except.error _ => ⟨10, 0, 0, 0⟩
  | Except.ok d =>
    let uniqueCommits := d.ahead_by
    let totalFiles := (d.files.map List.length).getD 0
    let modifiedFiles :=
      (d.files.map (fun fs =>
        (fs.filter (fun f => f.status == "modified" || f.status == "added")).length)).getD 0
    let base : ℚ :=
      (if 0 < uniqueCommits then (min (uniqueCommits * 2) 50 : ℚ) else 0) +
      (if 0 < totalFiles then ((modifiedFiles : ℚ) / (totalFiles : ℚ)) * 50 else 0)
    ⟨min (jsRound base) 100, uniqueCommits, totalFiles, modifiedFiles⟩

inductive Risk where
  | low
  | medium
  | high
deriving DecidableEq, Repr

structure ForkParent where
  full_name : String
  html_url : String
deriving DecidableEq, Repr

/-- The fields of the fetched repository record that the analyzers read
(presentation-only fields such as star counts are omitted). -/
structure GitHubRepo where
  fork : Bool
  parent : Option ForkParent
  license : Option String
  open_issues_count : Nat
  created_at : ℤ
  pushed_at : ℤ
deriving DecidableEq, Repr

structure ForkAnalysisResult where
  isFork : Bool
  parent : Option ForkParent := none
  originalityScore : Option ℤ := none
  uniqueCommits : Option Nat := none
  totalFiles : Option Nat := none
  modifiedFiles : Option Nat := none
  risk : Risk
  message : String
deriving DecidableEq, Repr

/-- `analyzeFork` from `src/lib/analyzers/fork-analyzer.ts`: non-forks get
score 100 and low risk; forks without parent data get 50 and medium risk;
otherwise the originality computation decides risk by thresholds 20/50. -/
def analyzeFork (repoData : GitHubRepo) (cmp : Except String CompareData) :
    ForkAnalysisResult :=
  if repoData.fork = false then
    { isFork := false, originalityScore := some 100, risk := Risk.low
      message := "Original repository - not a fork" }
  else
    match repoData.parent with
    | none =>
      { isFork := true, originalityScore := some 50, risk := Risk.medium
        message := "Fork detected but parent information unavailable" }
    | some p =>
      let originality := computeForkOriginality cmp
      let riskMsg : Risk × String :=
        if originality.originalityScore < 20 then
          (Risk.high, "Only " ++ toString originality.originalityScore ++
            "% original - Likely lazy fork with minimal changes. High scam risk!")
        else if originality.originalityScore < 50 then
          (Risk.medium, toString originality.originalityScore ++
            "% original - Some modifications but mostly forked code")
        else
          (Risk.low, toString originality.originalityScore ++
            "% original - Significant modifications, likely built on top of parent")
      { isFork := true, parent := some p
        originalityScore := some originality.originalityScore
        uniqueCommits := some originality.uniqueCommits
        totalFiles := some originality.totalFiles
        modifiedFiles := some originality.modifiedFiles
        risk := riskMsg.1, message := riskMsg.2 }

/-- The fork analyzer as a fallible unit: the repo fetch can throw (and
propagates), while a comparison failure is absorbed inside
`computeForkOriginality` and still yields a normal result. -/
def forkPipeline (repoFetch : Except String GitHubRepo)
    (cmp : Except String CompareData) : Except String ForkAnalysisResult := do
  let repoData ← repoFetch
  return analyzeFork repoData cmp

/-! ## Activity analyzer (`src/lib/analyzers/activity-analyzer.ts`)

Timestamps are milliseconds since the epoch (`Date.getTime()`); `now` is
`Date.now()`.  Commits are passed as the fetched window (the route fetches
the last 6 months, one page of at most 100); only their dates matter to
the scoring, and the presentation-only weekly `commitHistory` chart is not
modelled (no claim depends on it). -/

structure Contributor where
  login : String
  contributions : Nat
deriving DecidableEq, Repr

/-- `Math.floor((Date.now() - pushedAt) / (1000*60*60*24))`. -/
def daysSinceLastCommit (now pushedAt : ℤ) : ℤ :=
  Int.fdiv (now - pushedAt) 86400000

/-- `Math.max(1, Math.floor((Date.now() - createdAt) / (1000*60*60*24*7)))`. -/
def weeksSinceCreation (now createdAt : ℤ) : ℤ :=
  max 1 (Int.fdiv (now - createdAt) 604800000)

/-- The health-score block: start at 50, add the recency, velocity and
breadth adjustments, clamp to [0, 100]. -/
def healthScoreCalc (days : ℤ) (commitsPerWeek : ℚ) (nContribs : Nat) : ℤ :=
  let s1 : ℤ := 50 +
    (if days < 7 then 20 else if days < 30 then 10 else if 180 < days then -20 else 0)
  let s2 : ℤ := s1 +
    (if 5 < commitsPerWeek then 15 else if 2 < commitsPerWeek then 10
     else if commitsPerWeek < 1/2 then -15 else 0)
  let s3 : ℤ := s2 +
    (if 10 < nContribs then 15 else if 5 < nContribs then 10
     else if nContribs = 1 then -20 else 0)
  max 0 (min 100 s3)

/-- The flag block of the activity analyzer, in emission order. -/
def activityFlagsCalc (days : ℤ) (commitsPerWeek : ℚ) (nCommits : Nat)
    (contributors : List Contributor) : List String :=
  (if 180 < days then ["Inactive: No commits in 6+ months"] else []) ++
  (if contributors.length = 1 then ["Single contributor: High centralization risk"] else []) ++
  (if commitsPerWeek < 1/2 then ["Low activity: Less than 1 commit per 2 weeks"] else []) ++
  (match contributors with
   | [] => []
   | c :: _ =>
     if (nCommits : ℚ) * (4/5) < (c.contributions : ℚ)
     then ["Dominated by single contributor"] else [])

structure ActivityMetrics where
  totalCommits : Nat
  commitsPerWeek : ℚ
  lastCommitDate : ℤ
  daysSinceLastCommit : ℤ
  contributorCount : Nat
  topContributors : List Contributor
  healthScore : ℤ
  flags : List String
deriving DecidableEq, Repr

/-- `analyzeActivity`: metrics, health score and flags from the fetched
commit window and contributor list. -/
def analyzeActivity (now : ℤ) (repoData : GitHubRepo) (commits : List ℤ)
    (contributors : List Contributor) : ActivityMetrics :=
  let days := daysSinceLastCommit now repoData.pushed_at
  let weeks := weeksSinceCreation now repoData.created_at
  let commitsPerWeek : ℚ := (commits.length : ℚ) / ((min 26 weeks : ℤ) : ℚ)
  { totalCommits := commits.length
    commitsPerWeek := (jsRound (commitsPerWeek * 10) : ℚ) / 10
    lastCommitDate := repoData.pushed_at
    daysSinceLastCommit := days
    contributorCount := contributors.length
    topContributors := contributors.take 5
    healthScore := healthScoreCalc days commitsPerWeek contributors.length
    flags := activityFlagsCalc days commitsPerWeek commits.length contributors }

/-! ## Security analyzer (`src/lib/analyzers/security-analyzer.ts`) -/

structure SecurityIssue where
  number : Nat
  title : String
  state : String
  created_at : ℤ
  labels : List String
deriving DecidableEq, Repr

structure VulnFiles where
  hasPackageJson : Bool
  hasRequirementsTxt : Bool
  hasCargoToml : Bool
  hasSolidityFiles : Bool
deriving DecidableEq, Repr

structure RecentIssue where
  number : Nat
  title : String
  state : String
  created_at : ℤ
deriving DecidableEq, Repr

structure IssueSummary where
  total : Nat
  open_ : Nat
  closed : Nat
  recent : List RecentIssue
deriving DecidableEq, Repr

structure DependencyFiles where
  hasPackageJson : Bool
  hasRequirementsTxt : Bool
  hasCargoToml : Bool
deriving DecidableEq, Repr

structure SecurityAnalysisResult where
  securityIssues : IssueSummary
  languages : List (String × Nat)
  hasSolidityCode : Bool
  vulnerabilityFiles : DependencyFiles
  securityScore : ℤ
  flags : List String
  recommendations : List String
deriving DecidableEq, Repr

/-- `analyzeSecurity`: the score starts at 70 and is adjusted by open and
closed security-labeled issue counts, total open issues and license
presence, then clamped to [0, 100]; flags and recommendations follow the
source order. -/
def analyzeSecurity (securityIssues : List SecurityIssue)
    (languages : List (String × Nat)) (vulnFiles : VulnFiles)
    (repoData : GitHubRepo) : SecurityAnalysisResult :=
  let openIssues := securityIssues.filter (fun i => i.state == "open")
  let closedIssues := securityIssues.filter (fun i => i.state == "closed")
  let s1 : ℤ := 70 +
    (if 5 < openIssues.length then -30 else if 0 < openIssues.length then -15 else 0)
  let s2 : ℤ := s1 + (if openIssues.length * 2 < closedIssues.length then 15 else 0)
  let s3 : ℤ := s2 + (if 50 < repoData.open_issues_count then -10 else 0)
  let s4 : ℤ := s3 + (if repoData.license = none then -10 else 0)
  let securityScore : ℤ := max 0 (min 100 s4)
  let flags : List String :=
    (if 0 < openIssues.length then
      [toString openIssues.length ++ " unresolved security issue(s)"] else []) ++
    (if vulnFiles.hasSolidityFiles = true ∧ vulnFiles.hasPackageJson = false then
      ["Solidity code detected but no package.json for dependency tracking"] else []) ++
    (if 100 < repoData.open_issues_count then
      ["High number of open issues - may indicate poor maintenance"] else []) ++
    (if repoData.license = none then
      ["No license specified - legal/usage concerns"] else [])
  let mainLanguage := (sortDescBy (fun e => e.2) languages).head?
  let totalLangBytes := (languages.map (fun e => e.2)).sum
  let recommendations : List String :=
    (if 0 < closedIssues.length then
      ["Team has resolved " ++ toString closedIssues.length ++ " security issues previously"]
     else []) ++
    (match repoData.license with
     | some name => ["Licensed under " ++ name]
     | none => []) ++
    (match mainLanguage with
     | some lang =>
       if 0 < totalLangBytes then
         ["Primary language: " ++ lang.1 ++ " (" ++
           toString (jsRound ((lang.2 : ℚ) / (totalLangBytes : ℚ) * 100)) ++ "%)"]
       else []
     | none => [])
  { securityIssues :=
      { total := securityIssues.length
        open_ := openIssues.length
        closed := closedIssues.length
        recent := (securityIssues.take 5).map (fun i =>
          ⟨i.number, i.title, i.state, i.created_at⟩) }
    languages := languages
    hasSolidityCode := vulnFiles.hasSolidityFiles
    vulnerabilityFiles :=
      ⟨vulnFiles.hasPackageJson, vulnFiles.hasRequirementsTxt, vulnFiles.hasCargoToml⟩
    securityScore := securityScore
    flags := flags
    recommendations := recommendations }

/-! ## Aggregator: the v2 analyze route
(`src/unnamed/part_002` and `src/app/api/v2/analyze/route.ts`)

Each analyzer runs in its own `try/catch`; its outcome is an
`Except String` input.  A section of the `analyses` record is `none`
when the analyzer was not selected, `.error "<analyzer> analysis failed"`
when it threw, and `.ok` of its result otherwise.  The innovation-score
block reads the stored section objects back, so JavaScript truthiness
applies: an error stub is a truthy object whose `isFork` field is
undefined (hence falsy), and a numeric field equal to 0 is falsy. -/

inductive Severity where
  | high
  | medium
  | low
  | info
deriving DecidableEq, Repr

/-- The severity keyword classification the aggregator applies to each
collected flag message (`formattedFlags`). -/
def classifySeverity (flag : String) : Severity :=
  let l := toLowerStr flag
  if containsStr l "scam" || containsStr l "lazy fork" || containsStr l "unresolved security" then
    Severity.high
  else if containsStr l "inactive" || containsStr l "single contributor" then
    Severity.medium
  else
    Severity.medium

structure AnalysisOptions where
  forkAnalysis : Bool
  activityMetrics : Bool
  securityScan : Bool
deriving DecidableEq, Repr

/-- JavaScript truthiness of an optional numeric field: present and
nonzero. -/
def truthyOpt (o : Option ℤ) : Bool :=
  match o with
  | none => false
  | some n => n != 0

/-- The fork-impact step of the innovation score: from the base 50,
re-weight by the originality score when `isFork && originalityScore` is
truthy, else add the +20 original-repo bonus when `!isFork` is truthy
(which includes the error stub, whose `isFork` is undefined). -/
def forkStageScore (fork : Option (Except String ForkAnalysisResult)) : ℤ :=
  match fork with
  | none => 50
  | some (Except.error _) => 50 + 20
  | some (Except.ok r) =>
    if r.isFork = true ∧ truthyOpt r.originalityScore = true then
      jsRound ((r.originalityScore.getD 0 : ℚ) * 0.6 + (50 : ℚ) * 0.4)
    else if r.isFork = false then 50 + 20
    else 50

/-- The activity-impact step: add `healthScore * 0.3` and round, when the
section holds a result with truthy (nonzero) `healthScore`. -/
def activityStageScore (activity : Option (Except String ActivityMetrics))
    (score : ℤ) : ℤ :=
  match activity with
  | some (Except.ok a) =>
    if a.healthScore ≠ 0 then jsRound ((score : ℚ) + (a.healthScore : ℚ) * 0.3) else score
  | _ => score

/-- The security-impact step: add `securityScore * 0.2` and round, when
the section holds a result with truthy (nonzero) `securityScore`. -/
def securityStageScore (security : Option (Except String SecurityAnalysisResult))
    (score : ℤ) : ℤ :=
  match security with
  | some (Except.ok s) =>
    if s.securityScore ≠ 0 then jsRound ((score : ℚ) + (s.securityScore : ℚ) * 0.2) else score
  | _ => score

/-- The full innovation-score computation of the v2 route: the three
impact steps in order, then the final clamp to [1, 100]. -/
def computeInnovationScore (fork : Option (Except String ForkAnalysisResult))
    (activity : Option (Except String ActivityMetrics))
    (security : Option (Except String SecurityAnalysisResult)) : ℤ :=
  max 1 (min 100 (securityStageScore security (activityStageScore activity (forkStageScore fork))))

/-- Flags and recommendations contributed by a successful fork analysis,
following the if/else-if chain of the route. -/
def forkFlagsRecs (r : ForkAnalysisResult) : List String × List String :=
  if r.isFork = true ∧ r.risk = Risk.high then ([r.message], [])
  else if r.isFork = true ∧ r.risk = Risk.medium then ([r.message], [])
  else if r.isFork = false then
    ([], ["Original repository (not a fork) - good sign of authenticity"])
  else if truthyOpt r.originalityScore = true ∧ 70 < r.originalityScore.getD 0 then
    ([], ["High originality score (" ++ toString (r.originalityScore.getD 0) ++
      "%) - substantial work on top of parent"])
  else ([], [])

/-- Recommendations contributed by a successful activity analysis. -/
def activityRecs (a : ActivityMetrics) : List String :=
  (if 75 < a.healthScore then
    ["Excellent health score (" ++ toString a.healthScore ++ "/100) - active development"]
   else []) ++
  (if 10 < a.contributorCount then
    ["Strong contributor base with " ++ toString a.contributorCount ++ " contributors"]
   else [])

/-- Flags contributed by a successful security analysis: its own flags
plus the low-score flag added by the aggregator. -/
def securityFlagsAgg (s : SecurityAnalysisResult) : List String :=
  s.flags ++
  (if s.securityScore < 50 then
    ["Low security score (" ++ toString s.securityScore ++ "/100) - review carefully"]
   else [])

/-- The report produced by the v2 analyze route (the parts downstream of
the input fetch; repo/owner echo fields are omitted). -/
structure Report where
  fork : Option (Except String ForkAnalysisResult)
  activity : Option (Except String ActivityMetrics)
  security : Option (Except String SecurityAnalysisResult)
  innovationScore : ℤ
  redFlags : List (Severity × String)
  recommendations : List String

/-- The POST handler core of the v2 analyze route: run each selected
analyzer in isolation (an exception becomes the error stub for that
section only), collect flags and recommendations from the successful
ones, compute the innovation score and classify flag severities. -/
def v2AnalyzePOST (opts : AnalysisOptions)
    (forkOutcome : Except String ForkAnalysisResult)
    (activityOutcome : Except String ActivityMetrics)
    (securityOutcome : Except String SecurityAnalysisResult) : Report :=
  let forkSection : Option (Except String ForkAnalysisResult) :=
    if opts.forkAnalysis then
      some (match forkOutcome with
        | Except.ok r => Except.ok r
        | Except.error _ => Except.error "Fork analysis failed")
    else none
  let activitySection : Option (Except String ActivityMetrics) :=
    if opts.activityMetrics then
      some (match activityOutcome with
        | Except.ok a => Except.ok a
        | Except.error _ => Except.error "Activity analysis failed")
    else none
  let securitySection : Option (Except String SecurityAnalysisResult) :=
    if opts.securityScan then
      some (match securityOutcome with
        | Except.ok s => Except.ok s
        | Except.error _ => Except.error "Security analysis failed")
    else none
  let allFlags : List String :=
    (match forkSection with
     | some (Except.ok r) => (forkFlagsRecs r).1
     | _ => []) ++
    (match activitySection with
     | some (Except.ok a) => a.flags
     | _ => []) ++
    (match securitySection with
     | some (Except.ok s) => securityFlagsAgg s
     | _ => [])
  let allRecommendations : List String :=
    (match forkSection with
     | some (Except.ok r) => (forkFlagsRecs r).2
     | _ => []) ++
    (match activitySection with
     | some (Except.ok a) => activityRecs a
     | _ => []) ++
    (match securitySection with
     | some (Except.ok s) => s.recommendations
     | _ => [])
  { fork := forkSection
    activity := activitySection
    security := securitySection
    innovationScore := computeInnovationScore forkSection activitySection securitySection
    redFlags := allFlags.map (fun f => (classifySeverity f, f))
    recommendations := allRecommendations }

/-! ## The PoW-scan route variant (`src/unnamed/part_001`)

Its template-similarity measure and its simpler innovation-score formula.
The red flags of the route are built before the score and feed into it only
through their severities, so they are passed as a severity list. -/

/-- The fixed boilerplate marker list of the scan route. -/
def TEMPLATE_SIGS : List String :=
  ["openzeppelin", "OpenZeppelin", "ERC-20", "ERC20", "IERC20", "SafeMath", "Ownable"]

/-- Number of distinct boilerplate markers present in the corpus
(the `templateFiles` counter of the scan loop). -/
def countTemplateSigs (corpus : String) : Nat :=
  (TEMPLATE_SIGS.filter (fun sig => containsStr corpus sig)).length

/-- `templateRatio`: `(templateFiles / 3) / filesScanned` clamped to at
most 1, and 0 when no file was scanned. -/
def templateRatio (templateFiles filesScanned : Nat) : ℚ :=
  if filesScanned = 0 then 0
  else min 1 (((templateFiles : ℚ) / 3) / (filesScanned : ℚ))

/-- The `high_template_similarity` output flag: ratio at least 0.9. -/
def highTemplateSimilarity (ratio : ℚ) : Bool := decide ((0.9 : ℚ) ≤ ratio)

structure ScanFork where
  is_fork : Bool
deriving DecidableEq, Repr

structure ScanPow where
  template_similarity_ratio : ℚ
  high_template_similarity : Bool
deriving DecidableEq, Repr

structure ScanActivity where
  total_commits : Nat
  last_commit_date : Option ℤ
deriving DecidableEq, Repr

structure ScanContributors where
  unique_contributors : Nat
deriving DecidableEq, Repr

/-- The innovation-score block of the scan route: flat fork penalty,
template-similarity penalty, commit-volume, recency and contributor
tiers, red-flag severity penalties, then the final clamp to [1, 100].
Every adjustment is integral, so the final `Math.round` is the
identity and only the clamp remains. -/
def scanInnovationScore (now : ℤ) (fork : Option ScanFork) (pow : Option ScanPow)
    (activity : Option ScanActivity) (contributors : Option ScanContributors)
    (redFlags : List Severity) : ℤ :=
  let s1 : ℤ := 50 + (if (fork.map ScanFork.is_fork).getD false = true then -22 else 0)
  let s2 : ℤ := s1 +
    (match pow with
     | none => 0
     | some p =>
       if p.high_template_similarity = true then -25
       else -(jsRound (p.template_similarity_ratio * 15)))
  let s3 : ℤ := s2 +
    (match activity with
     | some a =>
       if a.total_commits ≠ 0 then
         (if 80 ≤ a.total_commits then 14
          else if 30 ≤ a.total_commits then 10
          else if 10 ≤ a.total_commits then 5 else 0)
       else 0
     | none => 0)
  let s4 : ℤ := s3 +
    (match activity with
     | some a =>
       match a.last_commit_date with
       | some d =>
         let months : ℚ := ((now - d : ℤ) : ℚ) / 2592000000
         if months < 1 then 8 else if months < 3 then 5
         else if months < 6 then 2 else -8
       | none => 0
     | none => 0)
  let s5 : ℤ := s4 +
    (match contributors with
     | some c =>
       if 10 ≤ c.unique_contributors then 10
       else if 5 ≤ c.unique_contributors then 6
       else if 3 ≤ c.unique_contributors then 2 else -8
     | none => 0)
  let s6 : ℤ := s5 +
    (if (fork.map ScanFork.is_fork).getD false = false ∧
        40 < ((activity.map ScanActivity.total_commits).getD 0) then 5 else 0)
  let s7 : ℤ := s6 - 6 * ((redFlags.filter (fun f => f = Severity.high)).length : ℤ)
  let s8 : ℤ := s7 - 2 * ((redFlags.filter (fun f => f = Severity.medium)).length : ℤ)
  max 1 (min 100 s8)

/-! ## Claim theorems -/

/-- C3: for every combination of analyzer results, including all-missing
and all-failed sections and arbitrary analyzer outputs, the innovation
score returned in the report lies in [1, 100] and is never 0; this holds
for the v2 re-weighting variant and for the PoW-scan penalty variant. -/
theorem innovation_score_bounds :
    (∀ (opts : AnalysisOptions) (fo : Except String ForkAnalysisResult)
       (ao : Except String ActivityMetrics) (so : Except String SecurityAnalysisResult),
       1 ≤ (v2AnalyzePOST opts fo ao so).innovationScore ∧
         (v2AnalyzePOST opts fo ao so).innovationScore ≤ 100) ∧
    (∀ (now : ℤ) (fork : Option ScanFork) (pow : Option ScanPow)
       (activity : Option ScanActivity) (contributors : Option ScanContributors)
       (redFlags : List Severity),
       1 ≤ scanInnovationScore now fork pow activity contributors redFlags ∧
         scanInnovationScore now fork pow activity contributors redFlags ≤ 100) := by
  constructor
  · intro opts fo ao so
    show 1 ≤ max 1 (min 100 _) ∧ max 1 (min 100 _) ≤ 100
    exact ⟨le_max_left _ _, max_le (by norm_num) (min_le_left _ _)⟩
  · intro now fork pow activity contributors redFlags
    show 1 ≤ max 1 (min 100 _) ∧ max 1 (min 100 _) ≤ 100
    exact ⟨le_max_left _ _, max_le (by norm_num) (min_le_left _ _)⟩

/-- C8: a collected flag message is classified high exactly when its
lowercased text contains "scam", "lazy fork" or "unresolved security";
every other message, including the "inactive" and "single contributor"
ones, is classified medium, and low is never assigned. -/
theorem flag_severity_classification (msg : String) :
    (classifySeverity msg = Severity.high ↔
      (containsStr (toLowerStr msg) "scam" = true ∨
       containsStr (toLowerStr msg) "lazy fork" = true ∨
       containsStr (toLowerStr msg) "unresolved security" = true)) ∧
    (¬ (containsStr (toLowerStr msg) "scam" = true ∨
        containsStr (toLowerStr msg) "lazy fork" = true ∨
        containsStr (toLowerStr msg) "unresolved security" = true) →
      classifySeverity msg = Severity.medium) ∧
    classifySeverity msg ≠ Severity.low := by
  cases hs : containsStr (toLowerStr msg) "scam" <;>
    cases hl : containsStr (toLowerStr msg) "lazy fork" <;>
      cases hu : containsStr (toLowerStr msg) "unresolved security" <;>
        simp [classifySeverity, hs, hl, hu]

/-- C8 witness: a message without any high keyword is medium, and a scam
message is high. -/
theorem flag_severity_classification_witness :
    classifySeverity "Fewer than 3 contributors." = Severity.medium ∧
    classifySeverity "High scam risk!" = Severity.high :=
  ⟨(flag_severity_classification "Fewer than 3 contributors.").2.1 (by decide),
   (flag_severity_classification "High scam risk!").1.mpr (by decide)⟩

/-- C10: for a fixed positive scanned-file count, the template-similarity
ratio is monotone non-decreasing in the number of distinct boilerplate
markers found, lies in [0, 1], and the high-template-similarity flag is
set exactly when the ratio is at least 0.9. -/
theorem template_ratio_monotone_bounds (c c' : String) (n : Nat) (hn : 0 < n) :
    (countTemplateSigs c ≤ countTemplateSigs c' →
      templateRatio (countTemplateSigs c) n ≤ templateRatio (countTemplateSigs c') n) ∧
    (0 ≤ templateRatio (countTemplateSigs c) n ∧ templateRatio (countTemplateSigs c) n ≤ 1) ∧
    (highTemplateSimilarity (templateRatio (countTemplateSigs c) n) = true ↔
      (9 : ℚ) / 10 ≤ templateRatio (countTemplateSigs c) n) := by
  have hn' : n ≠ 0 := Nat.pos_iff_ne_zero.mp hn
  have hnq : (0 : ℚ) < (n : ℚ) := by exact_mod_cast hn
  refine ⟨?_, ⟨?_, ?_⟩, ?_⟩
  · intro hle
    unfold templateRatio
    rw [if_neg hn', if_neg hn']
    have hle' : ((countTemplateSigs c : ℚ)) ≤ ((countTemplateSigs c' : ℚ)) := by
      exact_mod_cast hle
    exact min_le_min le_rfl (by gcongr)
  · unfold templateRatio
    rw [if_neg hn']
    exact le_min (by norm_num) (by positivity)
  · unfold templateRatio
    rw [if_neg hn']
    exact min_le_left _ _
  · unfold highTemplateSimilarity
    rw [decide_eq_true_iff]
    norm_num

/-- C10 witness: the property instantiated at an empty and a
one-marker corpus with one scanned file. -/
theorem template_ratio_monotone_bounds_witness :
    0 < 1 ∧
    ((countTemplateSigs "" ≤ countTemplateSigs "uses ERC20" →
      templateRatio (countTemplateSigs "") 1 ≤ templateRatio (countTemplateSigs "uses ERC20") 1) ∧
     (0 ≤ templateRatio (countTemplateSigs "") 1 ∧
      templateRatio (countTemplateSigs "") 1 ≤ 1) ∧
     (highTemplateSimilarity (templateRatio (countTemplateSigs "") 1) = true ↔
      (9 : ℚ) / 10 ≤ templateRatio (countTemplateSigs "") 1)) :=
  ⟨by decide, template_ratio_monotone_bounds "" "uses ERC20" 1 (by decide)⟩

/-- C7: with exactly 6 open security-labeled issues, at most 12 closed
ones, no license, and at most 50 open issues overall, the security score
is 70 - 30 - 10 = 30. -/
theorem security_score_six_open_no_license (issues : List SecurityIssue)
    (languages : List (String × Nat)) (vulnFiles : VulnFiles) (repoData : GitHubRepo)
    (hopen : (issues.filter (fun i => i.state == "open")).length = 6)
    (hclosed : (issues.filter (fun i => i.state == "closed")).length ≤ 12)
    (hlicense : repoData.license = none)
    (hissues : repoData.open_issues_count ≤ 50) :
    (analyzeSecurity issues languages vulnFiles repoData).securityScore = 30 := by
  unfold analyzeSecurity
  simp only [hopen, hlicense]
  rw [if_pos (by norm_num : 5 < 6), if_neg (by omega), if_neg (by omega)]
  norm_num

/-- C7 witness: six concrete open security issues, no license, small
issue count. -/
theorem security_score_six_open_no_license_witness :
    ((List.replicate 6 (⟨1, "vuln", "open", 0, ["security"]⟩ : SecurityIssue)).filter
        (fun i => i.state == "open")).length = 6 ∧
    ((List.replicate 6 (⟨1, "vuln", "open", 0, ["security"]⟩ : SecurityIssue)).filter
        (fun i => i.state == "closed")).length ≤ 12 ∧
    (⟨false, none, none, 10, 0, 0⟩ : GitHubRepo).license = none ∧
    (⟨false, none, none, 10, 0, 0⟩ : GitHubRepo).open_issues_count ≤ 50 ∧
    (analyzeSecurity (List.replicate 6 ⟨1, "vuln", "open", 0, ["security"]⟩) [] ⟨false, false, false, false⟩
        ⟨false, none, none, 10, 0, 0⟩).securityScore = 30 :=
  ⟨by decide, by decide, by decide, by decide,
   security_score_six_open_no_license _ _ _ _ (by decide) (by decide) (by decide) (by decide)⟩

/-- C5: a fork with a resolvable parent whose comparison yields 0 unique
commits and 0 of 10 files modified gets originality score 0, and the fork
analysis assigns high risk with a message containing "scam risk". -/
theorem lazy_fork_scam_risk (repoData : GitHubRepo) (p : ForkParent)
    (d : CompareData) (l : List CompareFile)
    (hf : repoData.fork = true) (hp : repoData.parent = some p)
    (ha : d.ahead_by = 0) (hfl : d.files = some l) (hlen : l.length = 10)
    (hmod : (l.filter (fun f => f.status == "modified" || f.status == "added")).length = 0) :
    computeForkOriginality (Except.ok d) = ⟨0, 0, 10, 0⟩ ∧
    (analyzeFork repoData (Except.ok d)).risk = Risk.high ∧
    containsStr (analyzeFork repoData (Except.ok d)).message "scam risk" = true := by
  have h1 : (d.files.map List.length).getD 0 = 10 := by rw [hfl]; simpa using hlen
  have h2 : (d.files.map (fun fs =>
      (fs.filter (fun f => f.status == "modified" || f.status == "added")).length)).getD 0 = 0 := by
    rw [hfl]; simpa using hmod
  have hco : computeForkOriginality (Except.ok d) = ⟨0, 0, 10, 0⟩ := by
    simp only [computeForkOriginality, ha, h1, h2]
    norm_num [jsRound]
  refine ⟨hco, ?_, ?_⟩
  · simp only [analyzeFork, hf, hp, hco]
    norm_num
  · simp only [analyzeFork, hf, hp, hco]
    norm_num
    decide

/-- A concrete fork repository record used as a witness input. -/
def sampleForkRepo : GitHubRepo :=
  { fork := true, parent := some ⟨"up/base", "u"⟩, license := none
    open_issues_count := 0, created_at := 0, pushed_at := 0 }

/-- A concrete comparison with 0 unique commits and 10 unchanged files. -/
def sampleCompare : CompareData :=
  { ahead_by := 0, files := some (List.replicate 10 ⟨"unchanged"⟩) }

/-- C5 witness: the zero-originality scenario at concrete inputs. -/
theorem lazy_fork_scam_risk_witness :
    (sampleForkRepo.fork = true ∧ sampleForkRepo.parent = some ⟨"up/base", "u"⟩ ∧
     sampleCompare.ahead_by = 0 ∧
     sampleCompare.files = some (List.replicate 10 ⟨"unchanged"⟩) ∧
     (List.replicate 10 (⟨"unchanged"⟩ : CompareFile)).length = 10 ∧
     ((List.replicate 10 (⟨"unchanged"⟩ : CompareFile)).filter
       (fun f => f.status == "modified" || f.status == "added")).length = 0) ∧
    (computeForkOriginality (Except.ok sampleCompare) = ⟨0, 0, 10, 0⟩ ∧
     (analyzeFork sampleForkRepo (Except.ok sampleCompare)).risk = Risk.high ∧
     containsStr (analyzeFork sampleForkRepo (Except.ok sampleCompare)).message
       "scam risk" = true) :=
  ⟨⟨by decide, by decide, by decide, by decide, by decide, by decide⟩,
   lazy_fork_scam_risk sampleForkRepo ⟨"up/base", "u"⟩ sampleCompare
     (List.replicate 10 ⟨"unchanged"⟩)
     (by decide) (by decide) (by decide) (by decide) (by decide) (by decide)⟩

/-- C6: when the fork-versus-parent comparison fails, the originality
computation falls back to score 10 with zero counts, and the fork
analyzer still returns a normal (non-error) result built from that
fallback. -/
theorem fork_compare_failure_fallback (e : String) (repoData : GitHubRepo)
    (p : ForkParent) (hf : repoData.fork = true) (hp : repoData.parent = some p) :
    computeForkOriginality (Except.error e) = ⟨10, 0, 0, 0⟩ ∧
    forkPipeline (Except.ok repoData) (Except.error e) =
      Except.ok
        { isFork := true, parent := some p, originalityScore := some 10,
          uniqueCommits := some 0, totalFiles := some 0, modifiedFiles := some 0,
          risk := Risk.high,
          message := "Only 10% original - Likely lazy fork with minimal changes. High scam risk!" } := by
  refine ⟨rfl, ?_⟩
  show Except.ok (analyzeFork repoData (Except.error e)) = _
  simp only [analyzeFork, hf, hp, computeForkOriginality]
  norm_num
  decide

/-- C6 witness: a concrete fork with parent and a failed comparison. -/
theorem fork_compare_failure_fallback_witness :
    (sampleForkRepo.fork = true ∧ sampleForkRepo.parent = some ⟨"up/base", "u"⟩) ∧
    (computeForkOriginality (Except.error "diff unresolvable") = ⟨10, 0, 0, 0⟩ ∧
     forkPipeline (Except.ok sampleForkRepo) (Except.error "diff unresolvable") =
       Except.ok
         { isFork := true, parent := some ⟨"up/base", "u"⟩, originalityScore := some 10,
           uniqueCommits := some 0, totalFiles := some 0, modifiedFiles := some 0,
           risk := Risk.high,
           message := "Only 10% original - Likely lazy fork with minimal changes. High scam risk!" }) :=
  ⟨⟨by decide, by decide⟩,
   fork_compare_failure_fallback "diff unresolvable" sampleForkRepo ⟨"up/base", "u"⟩
     (by decide) (by decide)⟩

/-- A fork analysis result with an existing originality score of 0, as
`analyzeFork` produces for a zero-originality fork. -/
def zeroOriginalityFork : ForkAnalysisResult :=
  { isFork := true, parent := some ⟨"up/base", "u"⟩, originalityScore := some 0,
    uniqueCommits := some 0, totalFiles := some 10, modifiedFiles := some 0,
    risk := Risk.high,
    message := "Only 0% original - Likely lazy fork with minimal changes. High scam risk!" }

/-- C1 counterexample: with a successful fork analysis of a fork whose
originality score exists and is 0, the claimed re-weighting would give
round(0*0.6 + 50*0.4) = 20, but the truthiness test in the code skips the
re-weighting and the score stays at the base 50. -/
theorem fork_reweight_zero_originality_cex :
    forkStageScore (some (Except.ok zeroOriginalityFork)) = 50 ∧
    (v2AnalyzePOST ⟨true, true, true⟩ (Except.ok zeroOriginalityFork)
        (Except.error "activity fetch failed")
        (Except.error "security fetch failed")).innovationScore = 50 ∧
    jsRound ((0 : ℚ) * 0.6 + (50 : ℚ) * 0.4) = 20 := by
  have h1 : forkStageScore (some (Except.ok zeroOriginalityFork)) = 50 := by
    simp [forkStageScore, truthyOpt, zeroOriginalityFork]
  refine ⟨h1, ?_, by norm_num [jsRound]⟩
  show computeInnovationScore _ _ _ = 50
  simp [computeInnovationScore, activityStageScore, securityStageScore, h1]

/-- C1 amended: the re-weighting `round(originality*0.6 + 50*0.4)` is
applied exactly when the repository is a fork and its originality score
exists and is nonzero; when the originality score is 0 the JavaScript
truthiness test skips it and the base score 50 is kept unchanged. -/
theorem fork_reweight_amended (r : ForkAnalysisResult) (s : ℤ)
    (hf : r.isFork = true) (ho : r.originalityScore = some s) :
    (s ≠ 0 → forkStageScore (some (Except.ok r)) =
      jsRound ((s : ℚ) * 0.6 + (50 : ℚ) * 0.4)) ∧
    (s = 0 → forkStageScore (some (Except.ok r)) = 50) := by
  constructor
  · intro hs
    simp [forkStageScore, truthyOpt, hf, ho, hs]
  · intro hs
    subst hs
    simp [forkStageScore, truthyOpt, hf, ho]

/-- A fork analysis result with a nonzero originality score. -/
def sampleForkResult : ForkAnalysisResult :=
  { isFork := true, parent := some ⟨"up/base", "u"⟩, originalityScore := some 30,
    uniqueCommits := some 5, totalFiles := some 10, modifiedFiles := some 4,
    risk := Risk.medium,
    message := "30% original - Some modifications but mostly forked code" }

/-- C1 witness: the amended statement at a fork with originality 30. -/
theorem fork_reweight_amended_witness :
    (sampleForkResult.isFork = true ∧ sampleForkResult.originalityScore = some 30) ∧
    (((30 : ℤ) ≠ 0 → forkStageScore (some (Except.ok sampleForkResult)) =
        jsRound ((30 : ℚ) * 0.6 + (50 : ℚ) * 0.4)) ∧
     ((30 : ℤ) = 0 → forkStageScore (some (Except.ok sampleForkResult)) = 50)) :=
  ⟨⟨rfl, rfl⟩, fork_reweight_amended sampleForkResult 30 rfl rfl⟩

/-- C2 counterexample: a non-fork repository 26 weeks old with 120
commits in the window, 12 contributors and a push 2 days ago satisfies
the premises of the claim, but `commitsPerWeek = 120/26 < 5` earns only the
+10 velocity tier, so the health score is 95, not the claimed 100. -/
theorem activity_health_120_commits_cex :
    (List.replicate 120 (0:ℤ)).length = 120 ∧
    (List.replicate 12 (⟨"dev", 1⟩ : Contributor)).length = 12 ∧
    daysSinceLastCommit (26 * 604800000) (26 * 604800000 - 2 * 86400000) = 2 ∧
    (analyzeActivity (26 * 604800000)
        ⟨false, none, none, 0, 0, 26 * 604800000 - 2 * 86400000⟩
        (List.replicate 120 (0:ℤ)) (List.replicate 12 ⟨"dev", 1⟩)).healthScore = 95 := by
  refine ⟨by decide, by decide, by decide, ?_⟩
  have hw : weeksSinceCreation (26 * 604800000) 0 = 26 := by decide
  have hd2 : daysSinceLastCommit (26 * 604800000) (26 * 604800000 - 2 * 86400000) = 2 := by
    decide
  simp only [analyzeActivity, hw, hd2, List.length_replicate]
  norm_num [healthScoreCalc]

/-- C2 amended: with 120 commits in the window, 12 contributors and a
push 2 days ago, the health score is 100 when the capped week count
`min(26, weeksSinceCreation)` is below 24 (so the velocity exceeds
5/week) and 95 otherwise (velocity tier +10), and neither the inactivity
flag nor the single-contributor flag is emitted. -/
theorem activity_health_120_commits (now : ℤ) (repoData : GitHubRepo)
    (commits : List ℤ) (contributors : List Contributor)
    (hc : commits.length = 120) (hn : contributors.length = 12)
    (hd : daysSinceLastCommit now repoData.pushed_at = 2) :
    (analyzeActivity now repoData commits contributors).healthScore =
      (if min 26 (weeksSinceCreation now repoData.created_at) < 24 then 100 else 95) ∧
    "Inactive: No commits in 6+ months" ∉
      (analyzeActivity now repoData commits contributors).flags ∧
    "Single contributor: High centralization risk" ∉
      (analyzeActivity now repoData commits contributors).flags := by
  have hw1 : (1:ℤ) ≤ weeksSinceCreation now repoData.created_at := le_max_left _ _
  have hm1 : (1:ℤ) ≤ min 26 (weeksSinceCreation now repoData.created_at) :=
    le_min (by norm_num) hw1
  have hmq : (0:ℚ) < ((min 26 (weeksSinceCreation now repoData.created_at) : ℤ) : ℚ) := by
    exact_mod_cast lt_of_lt_of_le zero_lt_one hm1
  refine ⟨?_, ?_, ?_⟩
  · simp only [analyzeActivity]
    rw [hd, hc, hn]
    have hcast : ((120 : ℕ) : ℚ) = (120 : ℚ) := by norm_num
    rw [hcast]
    unfold healthScoreCalc
    rw [if_pos (by norm_num : (2:ℤ) < 7)]
    by_cases hlt : min 26 (weeksSinceCreation now repoData.created_at) < 24
    · rw [if_pos hlt]
      have h23z : min 26 (weeksSinceCreation now repoData.created_at) ≤ 23 := by omega
      have h23 : ((min 26 (weeksSinceCreation now repoData.created_at) : ℤ) : ℚ) ≤ 23 := by
        exact_mod_cast h23z
      have h5 : (5:ℚ) < 120 / ((min 26 (weeksSinceCreation now repoData.created_at) : ℤ) : ℚ) := by
        rw [lt_div_iff₀ hmq]
        nlinarith
      rw [if_pos h5, if_pos (by norm_num : 10 < 12)]
      norm_num
    · rw [if_neg hlt]
      push_neg at hlt
      have h24 : (24:ℚ) ≤ ((min 26 (weeksSinceCreation now repoData.created_at) : ℤ) : ℚ) := by
        exact_mod_cast hlt
      have h26 : ((min 26 (weeksSinceCreation now repoData.created_at) : ℤ) : ℚ) ≤ 26 := by
        exact_mod_cast (min_le_left 26 (weeksSinceCreation now repoData.created_at))
      have hn5 : ¬ (5:ℚ) < 120 / ((min 26 (weeksSinceCreation now repoData.created_at) : ℤ) : ℚ) := by
        rw [not_lt, div_le_iff₀ hmq]
        nlinarith
      have h2 : (2:ℚ) < 120 / ((min 26 (weeksSinceCreation now repoData.created_at) : ℤ) : ℚ) := by
        rw [lt_div_iff₀ hmq]
        nlinarith
      rw [if_neg hn5, if_pos h2, if_pos (by norm_num : 10 < 12)]
      norm_num
  · simp only [analyzeActivity]
    rw [hd]
    unfold activityFlagsCalc
    rw [if_neg (by norm_num : ¬(180:ℤ) < 2), if_neg (by omega : ¬contributors.length = 1)]
    simp only [List.nil_append, List.mem_append, not_or]
    constructor
    · intro h
      split at h
      · simp at h
      · simp at h
    · cases contributors with
      | nil => intro h; simp at h
      | cons c rest =>
        intro h
        split at h
        · simp at h
        · simp at h
  · simp only [analyzeActivity]
    rw [hd]
    unfold activityFlagsCalc
    rw [if_neg (by norm_num : ¬(180:ℤ) < 2), if_neg (by omega : ¬contributors.length = 1)]
    simp only [List.nil_append, List.mem_append, not_or]
    constructor
    · intro h
      split at h
      · simp at h
      · simp at h
    · cases contributors with
      | nil => intro h; simp at h
      | cons c rest =>
        intro h
        split at h
        · simp at h
        · simp at h

/-- A non-fork repository 10 weeks old whose last push was 2 days ago
(timestamps in milliseconds, `now = 10 * 604800000`). -/
def youngRepo : GitHubRepo :=
  { fork := false, parent := none, license := none, open_issues_count := 0
    created_at := 0, pushed_at := 10 * 604800000 - 2 * 86400000 }

/-- C2 witness: the amended statement at a 10-week-old repository, where
the capped week count is below 24 and the health score is 100. -/
theorem activity_health_120_commits_witness :
    ((List.replicate 120 (0:ℤ)).length = 120 ∧
     (List.replicate 12 (⟨"dev", 1⟩ : Contributor)).length = 12 ∧
     daysSinceLastCommit (10 * 604800000) youngRepo.pushed_at = 2) ∧
    ((analyzeActivity (10 * 604800000) youngRepo (List.replicate 120 (0:ℤ))
        (List.replicate 12 ⟨"dev", 1⟩)).healthScore =
      (if min 26 (weeksSinceCreation (10 * 604800000) youngRepo.created_at) < 24
       then 100 else 95) ∧
     "Inactive: No commits in 6+ months" ∉
       (analyzeActivity (10 * 604800000) youngRepo (List.replicate 120 (0:ℤ))
         (List.replicate 12 ⟨"dev", 1⟩)).flags ∧
     "Single contributor: High centralization risk" ∉
       (analyzeActivity (10 * 604800000) youngRepo (List.replicate 120 (0:ℤ))
         (List.replicate 12 ⟨"dev", 1⟩)).flags) :=
  ⟨⟨by decide, by decide, by decide⟩,
   activity_health_120_commits (10 * 604800000) youngRepo _ _
     (by decide) (by decide) (by decide)⟩

/-- C9: when any single selected analyzer throws, the aggregator stores
the error stub for that section only, keeps the results of the other
analyzers unchanged, and still produces a report whose innovation score is
in [1, 100] (together with red flags and recommendations). -/
theorem analyzer_failure_isolation (e : String) (r : ForkAnalysisResult)
    (a : ActivityMetrics) (s : SecurityAnalysisResult) :
    ((v2AnalyzePOST ⟨true, true, true⟩ (Except.error e) (Except.ok a) (Except.ok s)).fork =
        some (Except.error "Fork analysis failed") ∧
     (v2AnalyzePOST ⟨true, true, true⟩ (Except.error e) (Except.ok a) (Except.ok s)).activity =
        some (Except.ok a) ∧
     (v2AnalyzePOST ⟨true, true, true⟩ (Except.error e) (Except.ok a) (Except.ok s)).security =
        some (Except.ok s) ∧
     1 ≤ (v2AnalyzePOST ⟨true, true, true⟩ (Except.error e) (Except.ok a) (Except.ok s)).innovationScore ∧
     (v2AnalyzePOST ⟨true, true, true⟩ (Except.error e) (Except.ok a) (Except.ok s)).innovationScore ≤ 100) ∧
    ((v2AnalyzePOST ⟨true, true, true⟩ (Except.ok r) (Except.error e) (Except.ok s)).fork =
        some (Except.ok r) ∧
     (v2AnalyzePOST ⟨true, true, true⟩ (Except.ok r) (Except.error e) (Except.ok s)).activity =
        some (Except.error "Activity analysis failed") ∧
     (v2AnalyzePOST ⟨true, true, true⟩ (Except.ok r) (Except.error e) (Except.ok s)).security =
        some (Except.ok s) ∧
     1 ≤ (v2AnalyzePOST ⟨true, true, true⟩ (Except.ok r) (Except.error e) (Except.ok s)).innovationScore ∧
     (v2AnalyzePOST ⟨true, true, true⟩ (Except.ok r) (Except.error e) (Except.ok s)).innovationScore ≤ 100) ∧
    ((v2AnalyzePOST ⟨true, true, true⟩ (Except.ok r) (Except.ok a) (Except.error e)).fork =
        some (Except.ok r) ∧
     (v2AnalyzePOST ⟨true, true, true⟩ (Except.ok r) (Except.ok a) (Except.error e)).activity =
        some (Except.ok a) ∧
     (v2AnalyzePOST ⟨true, true, true⟩ (Except.ok r) (Except.ok a) (Except.error e)).security =
        some (Except.error "Security analysis failed") ∧
     1 ≤ (v2AnalyzePOST ⟨true, true, true⟩ (Except.ok r) (Except.ok a) (Except.error e)).innovationScore ∧
     (v2AnalyzePOST ⟨true, true, true⟩ (Except.ok r) (Except.ok a) (Except.error e)).innovationScore ≤ 100) := by
  refine ⟨⟨rfl, rfl, rfl, ?_, ?_⟩, ⟨rfl, rfl, rfl, ?_, ?_⟩, ⟨rfl, rfl, rfl, ?_, ?_⟩⟩ <;>
    first
      | (show 1 ≤ max 1 (min 100 _); exact le_max_left _ _)
      | (show max 1 (min 100 _) ≤ 100; exact max_le (by norm_num) (min_le_left _ _))

/-- C4: over any corpus containing the literal "scrypt" three times and
matching no other catalog signature, `detectPowAlgorithms` returns
exactly one result, the scrypt entry with score 3: the literal weight
counts once, not per occurrence, and the weight-0 sha256
"scrypt" literal contributes no result. -/
theorem detect_scrypt_single_result (mc : String → String → Nat) (corpus : String)
    (h3 : countOccs "scrypt" corpus = 3)
    (hno : ∀ a ∈ POW_ALGORITHMS, ∀ s ∈ a.signatures, s.pattern ≠ "scrypt" →
      (s.type = SigType.literal → containsStr corpus s.pattern = false) ∧
      (s.type = SigType.regex → mc s.pattern corpus = 0)) :
    (detectPowAlgorithms mc corpus).map (fun r => (r.1.id, r.2)) = [("scrypt", 3)] := by
  have hcon : containsStr corpus "scrypt" = true :=
    countOccs_pos_contains "scrypt" corpus (by rw [h3]; norm_num)
  have hz : ∀ a ∈ POW_ALGORITHMS, ∀ s ∈ a.signatures, s.pattern ≠ "scrypt" →
      sigScore mc corpus s = 0 := by
    intro a ha s hs hne
    obtain ⟨hl, hr⟩ := hno a ha s hs hne
    cases hty : s.type with
    | regex => simp [sigScore, hty, hr hty]
    | literal => simp [sigScore, hty, hl hty]
  have hzz : ∀ a ∈ POW_ALGORITHMS, (∀ s ∈ a.signatures, s.pattern ≠ "scrypt") →
      algoScore mc corpus a = 0 := by
    intro a ha hall
    unfold algoScore
    apply List.sum_eq_zero
    intro x hx
    rw [List.mem_map] at hx
    obtain ⟨s, hs, rfl⟩ := hx
    exact hz a ha s hs (hall s hs)
  have hsha : algoScore mc corpus sha256Algo = 0 := by
    have e1 : mc "SHA256|sha256|SHA-256" corpus = 0 :=
      (hno sha256Algo (by simp [POW_ALGORITHMS]) ⟨"SHA256|sha256|SHA-256", SigType.regex, 2⟩
        (by simp [sha256Algo]) (by decide)).2 rfl
    have e2 : mc "double.*sha|sha.*double" corpus = 0 :=
      (hno sha256Algo (by simp [POW_ALGORITHMS]) ⟨"double.*sha|sha.*double", SigType.regex, 3⟩
        (by simp [sha256Algo]) (by decide)).2 rfl
    simp [algoScore, sha256Algo, sigScore, e1, e2]
  have hscr : algoScore mc corpus scryptAlgo = 3 := by
    have escr : containsStr corpus "SCRYPT" = false :=
      (hno scryptAlgo (by simp [POW_ALGORITHMS]) ⟨"SCRYPT", SigType.literal, 3⟩
        (by simp [scryptAlgo]) (by decide)).1 rfl
    simp [algoScore, scryptAlgo, sigScore, hcon, escr]
  have heth : algoScore mc corpus ethashAlgo = 0 :=
    hzz ethashAlgo (by simp [POW_ALGORITHMS]) (by decide)
  have hrnd : algoScore mc corpus randomxAlgo = 0 :=
    hzz randomxAlgo (by simp [POW_ALGORITHMS]) (by decide)
  have heqh : algoScore mc corpus equihashAlgo = 0 :=
    hzz equihashAlgo (by simp [POW_ALGORITHMS]) (by decide)
  have hkaw : algoScore mc corpus kawpowAlgo = 0 :=
    hzz kawpowAlgo (by simp [POW_ALGORITHMS]) (by decide)
  have hbl : algoScore mc corpus blake2bAlgo = 0 :=
    hzz blake2bAlgo (by simp [POW_ALGORITHMS]) (by decide)
  have hly : algoScore mc corpus lyra2Algo = 0 :=
    hzz lyra2Algo (by simp [POW_ALGORITHMS]) (by decide)
  have hgh : algoScore mc corpus ghostriderAlgo = 0 :=
    hzz ghostriderAlgo (by simp [POW_ALGORITHMS]) (by decide)
  have hv : algoScore mc corpus verthashAlgo = 0 :=
    hzz verthashAlgo (by simp [POW_ALGORITHMS]) (by decide)
  have hloop : detectLoop mc corpus POW_ALGORITHMS [] = [(scryptAlgo, 3)] := by
    simp [POW_ALGORITHMS, detectLoop, hsha, hscr, heth, hrnd, heqh, hkaw, hbl, hly, hgh, hv]
  unfold detectPowAlgorithms
  rw [hloop]
  simp [sortDescBy, insertDescBy, scryptAlgo]

/-- C4 witness: the concrete corpus "scrypt scrypt scrypt" and the match
oracle reporting zero regex matches. -/
theorem detect_scrypt_single_result_witness :
    (countOccs "scrypt" "scrypt scrypt scrypt" = 3 ∧
     (∀ a ∈ POW_ALGORITHMS, ∀ s ∈ a.signatures, s.pattern ≠ "scrypt" →
       (s.type = SigType.literal →
         containsStr "scrypt scrypt scrypt" s.pattern = false) ∧
       (s.type = SigType.regex →
         (fun _ _ => 0 : String → String → Nat) s.pattern "scrypt scrypt scrypt" = 0))) ∧
    (detectPowAlgorithms (fun _ _ => 0) "scrypt scrypt scrypt").map
      (fun r => (r.1.id, r.2)) = [("scrypt", 3)] :=
  ⟨⟨by decide, by decide⟩,
   detect_scrypt_single_result (fun _ _ => 0) "scrypt scrypt scrypt" (by decide) (by decide)⟩
